import Mathlib

/-!
Verification of the payment-gated query service (backend A2A / chat routes and
frontend payment flow) against its natural-language specification.

The definitions below are a shallow embedding of the TypeScript sources:

* `src/backend/src/routes/a2a.routes.ts` — JSON-RPC dispatcher, the
  message/send, tasks/get, tasks/cancel handlers, the in-memory task map and
  conversation history, and the chat / chat-stream endpoints of the same file.
* `src/backend/src/services/nilai.service.ts` — the streaming producer, whose
  network behaviour is passed in as an oracle (the chunk list / result it
  yields), but whose chunk filtering is embedded.
* `src/frontend/components/header.tsx` — the requester side: the 402 handling
  of sendMessage (including the React setState semantics: the state value
  captured at render time is read throughout an event handler, and the last
  setState call of the handler determines the committed value) and the
  EIP-3009 authorization built by handlePayment.

JavaScript `Map` objects are modelled as association lists; only `get` and
`set` are ever used by the sources, so insertion order is unobservable.
Fallible calls are modelled with `Except`; fresh UUIDs are passed in as
explicit arguments.
-/

namespace Phylax

/-! ### Association-list model of the in-memory Maps -/

def mapGet {α : Type} (m : List (String × α)) (k : String) : Option α :=
  match m with
  | [] => none
  | (k', v) :: rest => if k' = k then some v else mapGet rest k

def mapErase {α : Type} (m : List (String × α)) (k : String) :
    List (String × α) :=
  match m with
  | [] => []
  | (k', v) :: rest =>
    if k' = k then mapErase rest k else (k', v) :: mapErase rest k

def mapSet {α : Type} (m : List (String × α)) (k : String) (v : α) :
    List (String × α) :=
  (k, v) :: mapErase m k

/-! ### A2A data model (a2a.routes.ts, lines 13-33) -/

inductive TaskStatus
  | submitted
  | working
  | inputRequired
  | completed
  | failed
  | canceled
deriving DecidableEq, Repr

structure TextPart where
  text : String
deriving DecidableEq, Repr

inductive A2ARole
  | user
  | agent
deriving DecidableEq, Repr

structure A2AMessage where
  role : A2ARole
  parts : List TextPart
deriving DecidableEq, Repr

structure Artifact where
  name : String
  parts : List TextPart
deriving DecidableEq, Repr

structure A2ATask where
  id : String
  contextId : String
  status : TaskStatus
  messages : List A2AMessage
  artifacts : List Artifact
deriving DecidableEq, Repr

inductive ConvRole
  | user
  | assistant
deriving DecidableEq, Repr

structure ConversationMessage where
  role : ConvRole
  content : String
deriving DecidableEq, Repr

/-- The two in-memory Maps of a2a.routes.ts: tasks and conversationHistory. -/
structure ServerState where
  tasks : List (String × A2ATask)
  conversationHistory : List (String × List ConversationMessage)
deriving DecidableEq, Repr

/-! ### tasks/get and tasks/cancel handlers (a2a.routes.ts, lines 242-260) -/

/-- handleTasksGet: looks the task up; throws "Task not found" when absent.
A missing taskId param behaves like an unknown id (Map.get undefined). -/
def handleTasksGet (st : ServerState) (taskId : Option String) :
    Except String A2ATask :=
  match taskId.bind (fun tid => mapGet st.tasks tid) with
  | none => .error "Task not found"
  | some t => .ok t

/-- handleTasksCancel: looks the task up; throws "Task not found" when absent;
otherwise unconditionally sets status to canceled (the source has no check of
the current status) and returns the updated task. -/
def handleTasksCancel (st : ServerState) (taskId : Option String) :
    Except String (ServerState × A2ATask) :=
  match taskId with
  | none => .error "Task not found"
  | some tid =>
    match mapGet st.tasks tid with
    | none => .error "Task not found"
    | some t =>
      let t' : A2ATask := { t with status := TaskStatus.canceled }
      .ok ({ st with tasks := mapSet st.tasks tid t' }, t')

/-! ### message/send handler (a2a.routes.ts, lines 133-237)

Fresh UUIDs (contextId fallback, taskId) are passed as arguments. The nilai
producer is passed as an oracle: for the non-streaming path the outcome of
processQuery, for the streaming path the chunk list it yielded followed by an
optional error (a generator that throws after yielding some chunks). -/

structure MessagePart where
  type : String
  text : Option String
deriving DecidableEq, Repr

structure SendConfiguration where
  contextId : Option String
  streaming : Option Bool
deriving DecidableEq, Repr

structure SendParams where
  parts : List MessagePart
  configuration : Option SendConfiguration
deriving DecidableEq, Repr

/-- Text extraction: keep parts with type "text" and a truthy text (defined and
non-empty), project the text, join with newlines. -/
def userTextOf (parts : List MessagePart) : String :=
  String.intercalate "\n"
    ((parts.filter (fun p => p.type = "text" && p.text.getD "" ≠ "")).map
      (fun p => p.text.getD ""))

/-- configuration?.streaming ?? false -/
def effStreaming (p : SendParams) : Bool :=
  (p.configuration.bind (fun c => c.streaming)).getD false

/-- configuration?.contextId || uuidv4(): the empty string is falsy in JS, so
it also falls back to the fresh uuid. -/
def effContextId (p : SendParams) (freshCtx : String) : String :=
  match p.configuration.bind (fun c => c.contextId) with
  | some c => if c = "" then freshCtx else c
  | none => freshCtx

def userA2AMessage (userText : String) : A2AMessage :=
  { role := A2ARole.user, parts := [{ text := userText }] }

def agentA2AMessage (t : String) : A2AMessage :=
  { role := A2ARole.agent, parts := [{ text := t }] }

/-- Non-streaming message/send: processQuery, then append the turn pair to the
conversation history, then store the completed task under the fresh id. A
producer error propagates before any state is touched. -/
def handleMessageSendSync (st : ServerState) (p : SendParams)
    (freshCtx freshTask : String)
    (processQuery : String → List ConversationMessage → Except String String) :
    Except String (ServerState × A2ATask) :=
  let contextId := effContextId p freshCtx
  let userText := userTextOf p.parts
  let history := (mapGet st.conversationHistory contextId).getD []
  match processQuery userText history with
  | .error e => .error e
  | .ok responseText =>
    let history' := history ++
      [{ role := ConvRole.user, content := userText },
       { role := ConvRole.assistant, content := responseText }]
    let task : A2ATask :=
      { id := freshTask, contextId := contextId, status := TaskStatus.completed,
        messages := [userA2AMessage userText, agentA2AMessage responseText],
        artifacts := [] }
    .ok ({ tasks := mapSet st.tasks freshTask task,
           conversationHistory := mapSet st.conversationHistory contextId history' },
         task)

/-- The initial task stored before streaming starts (status working). -/
def initialStreamTask (taskId contextId userText : String) : A2ATask :=
  { id := taskId, contextId := contextId, status := TaskStatus.working,
    messages := [userA2AMessage userText], artifacts := [] }

/-- The per-chunk snapshot written to the stream (spread of the initial task
with both messages and status working). -/
def deltaStreamTask (taskId contextId userText fullResponse : String) : A2ATask :=
  { id := taskId, contextId := contextId, status := TaskStatus.working,
    messages := [userA2AMessage userText, agentA2AMessage fullResponse],
    artifacts := [] }

/-- The completed task written after the stream ends. -/
def completedStreamTask (taskId contextId userText fullResponse : String) :
    A2ATask :=
  { id := taskId, contextId := contextId, status := TaskStatus.completed,
    messages := [userA2AMessage userText, agentA2AMessage fullResponse],
    artifacts := [] }

/-- First phase of streaming message/send: store the working task. -/
def msgSendStreamInit (st : ServerState) (taskId contextId userText : String) :
    ServerState :=
  { st with tasks := mapSet st.tasks taskId (initialStreamTask taskId contextId userText) }

/-- Last phase of streaming message/send (the code after the for-await loop):
append the turn pair to the history captured at the start of the handler, and
unconditionally overwrite the task entry with a completed task. The source
never consults the current status of the entry. -/
def msgSendStreamFinish (st : ServerState) (taskId contextId userText : String)
    (history : List ConversationMessage) (fullResponse : String) :
    ServerState × A2ATask :=
  let history' := history ++
    [{ role := ConvRole.user, content := userText },
     { role := ConvRole.assistant, content := fullResponse }]
  let completedTask := completedStreamTask taskId contextId userText fullResponse
  ({ tasks := mapSet st.tasks taskId completedTask,
     conversationHistory := mapSet st.conversationHistory contextId history' },
   completedTask)

/-- Server-sent events written by the A2A streaming path. -/
inductive A2AEvent
  | taskEvent (t : A2ATask)
  | doneSentinel
deriving DecidableEq, Repr

/-- The events written inside the for-await loop: one snapshot per chunk, with
fullResponse accumulating the concatenation so far. -/
def deltaEvents (taskId contextId userText : String) :
    String → List String → List A2AEvent
  | _, [] => []
  | acc, c :: cs =>
    A2AEvent.taskEvent (deltaStreamTask taskId contextId userText (acc ++ c)) ::
      deltaEvents taskId contextId userText (acc ++ c) cs

/-- Streaming message/send, given the chunks the producer yielded and an
optional error it then threw. On error the loop aborts: the history is not
updated and the task entry keeps the initial working task; the surrounding
catch then emits a -32603 error (returned as the trailing component; the SSE
headers are already flushed at that point). -/
def runMessageSendStream (st : ServerState) (p : SendParams)
    (freshCtx freshTask : String) (chunks : List String) (err : Option String) :
    ServerState × List A2AEvent × Option (Int × String) :=
  let contextId := effContextId p freshCtx
  let userText := userTextOf p.parts
  let history := (mapGet st.conversationHistory contextId).getD []
  let st1 := msgSendStreamInit st freshTask contextId userText
  let evInit := A2AEvent.taskEvent (initialStreamTask freshTask contextId userText)
  match err with
  | some e =>
    (st1, evInit :: deltaEvents freshTask contextId userText "" chunks,
     some (-32603, if e = "" then "Internal error" else e))
  | none =>
    let fullResponse := String.join chunks
    let (st2, completedTask) :=
      msgSendStreamFinish st1 freshTask contextId userText history fullResponse
    (st2,
     evInit :: (deltaEvents freshTask contextId userText "" chunks ++
       [A2AEvent.taskEvent completedTask, A2AEvent.doneSentinel]),
     none)

/-! ### JSON-RPC dispatcher (a2a.routes.ts, lines 80-125) -/

structure RpcParams where
  messageParts : List MessagePart
  configuration : Option SendConfiguration
  taskId : Option String
deriving DecidableEq, Repr

structure RpcRequest where
  jsonrpc : String
  method : String
  params : RpcParams
deriving DecidableEq, Repr

inductive RpcOutcome
  | result (t : A2ATask)
  | rpcError (code : Int) (msg : String)
  | streamed (events : List A2AEvent) (trailingError : Option (Int × String))
deriving DecidableEq, Repr

/-- error.message fallback ("Internal error" when the message is falsy) in the catch of the POST /a2a route. -/
def internalErrMsg (e : String) : String :=
  if e = "" then "Internal error" else e

/-- The behaviour of the nilai producer during one request, as an oracle:
processQuery outcome and streamQuery run (yielded chunks, optional error). -/
structure ProducerBehavior where
  processQuery : String → List ConversationMessage → Except String String
  streamQuery : String → List ConversationMessage → List String × Option String

/-- POST /a2a: validate the jsonrpc version, dispatch on the method, map any
handler exception to a -32603 error. -/
def handleA2ARequest (st : ServerState) (req : RpcRequest)
    (freshCtx freshTask : String) (producer : ProducerBehavior) :
    ServerState × RpcOutcome :=
  if req.jsonrpc ≠ "2.0" then
    (st, RpcOutcome.rpcError (-32600) "Invalid Request")
  else if req.method = "message/send" then
    let p : SendParams :=
      { parts := req.params.messageParts, configuration := req.params.configuration }
    if effStreaming p then
      let contextId := effContextId p freshCtx
      let userText := userTextOf p.parts
      let history := (mapGet st.conversationHistory contextId).getD []
      let run := producer.streamQuery userText history
      let out := runMessageSendStream st p freshCtx freshTask run.1 run.2
      (out.1, RpcOutcome.streamed out.2.1 out.2.2)
    else
      match handleMessageSendSync st p freshCtx freshTask producer.processQuery with
      | .error e => (st, RpcOutcome.rpcError (-32603) (internalErrMsg e))
      | .ok (st', task) => (st', RpcOutcome.result task)
  else if req.method = "tasks/get" then
    match handleTasksGet st req.params.taskId with
    | .error e => (st, RpcOutcome.rpcError (-32603) (internalErrMsg e))
    | .ok t => (st, RpcOutcome.result t)
  else if req.method = "tasks/cancel" then
    match handleTasksCancel st req.params.taskId with
    | .error e => (st, RpcOutcome.rpcError (-32603) (internalErrMsg e))
    | .ok (st', t) => (st', RpcOutcome.result t)
  else
    (st, RpcOutcome.rpcError (-32601) ("Method not found: " ++ req.method))

/-! ### Chat routes (a2a.routes.ts chat section, lines 261-471)

The nildb store operations and the nilai producer are external collaborators;
their outcomes are passed in as oracles. The session map is the in-memory
sessionHistory Map. -/

structure ChatState where
  sessionHistory : List (String × List ConversationMessage)
deriving DecidableEq, Repr

inductive ChatResult
  | badRequest (err : String)
  | ok (response sessionId recordId : String)
  | serverError (err details : String)
deriving DecidableEq, Repr

/-- sessionId || uuidv4() (empty string is falsy). -/
def effSessionId (sessionId : Option String) (freshSession : String) : String :=
  match sessionId with
  | some s => if s = "" then freshSession else s
  | none => freshSession

/-- POST /api/chat: validate message, read history, storePrompt, processQuery,
storeResponse, append the turn pair, reply 200; any thrown error is caught and
reported as a 500 with the failure details, leaving the session map unchanged. -/
def handleChat (st : ChatState) (message : Option String)
    (sessionId : Option String) (freshSession : String)
    (storePrompt : Except String String)
    (processQuery : String → List ConversationMessage → Except String String)
    (storeResponse : String → Except String Unit) : ChatState × ChatResult :=
  match message with
  | none => (st, ChatResult.badRequest "Message is required")
  | some msg =>
    if msg = "" then (st, ChatResult.badRequest "Message is required")
    else
      let sid := effSessionId sessionId freshSession
      let history := (mapGet st.sessionHistory sid).getD []
      match storePrompt with
      | .error e => (st, ChatResult.serverError "Failed to process medical query" e)
      | .ok recordId =>
        match processQuery msg history with
        | .error e => (st, ChatResult.serverError "Failed to process medical query" e)
        | .ok response =>
          match storeResponse response with
          | .error e => (st, ChatResult.serverError "Failed to process medical query" e)
          | .ok _ =>
            let history' := history ++
              [{ role := ConvRole.user, content := msg },
               { role := ConvRole.assistant, content := response }]
            ({ sessionHistory := mapSet st.sessionHistory sid history' },
             ChatResult.ok response sid recordId)

/-- Events written by POST /api/chat/stream. -/
inductive ChatStreamEvent
  | chunkEvent (chunk sessionId : String)
  | doneEvent (recordId sessionId : String)
  | errorEvent
deriving DecidableEq, Repr

/-- streamQuery (nilai.service.ts, lines 109-138): of the raw upstream deltas
(possibly undefined or empty), only truthy contents are yielded. -/
def streamQueryYield (rawDeltas : List (Option String)) : List String :=
  rawDeltas.filterMap (fun d =>
    match d with
    | some s => if s = "" then none else some s
    | none => none)

/-- The for-await loop of /api/chat/stream: one data event per yielded chunk,
accumulating fullResponse. Returns the events and the final fullResponse given
the accumulator so far. -/
def chatStreamLoop (sid : String) : List String → String →
    List ChatStreamEvent × String
  | [], acc => ([], acc)
  | c :: cs, acc =>
    let rest := chatStreamLoop sid cs (acc ++ c)
    (ChatStreamEvent.chunkEvent c sid :: rest.1, rest.2)

/-- POST /api/chat/stream: validate message, storePrompt, stream the yielded
chunks, storeResponse, append the turn pair, emit the done event. A failure
after streaming began emits an error event instead and leaves the session map
unchanged. -/
def handleChatStream (st : ChatState) (message : Option String)
    (sessionId : Option String) (freshSession : String)
    (storePrompt : Except String String)
    (rawDeltas : List (Option String))
    (storeResponse : String → Except String Unit) :
    ChatState × List ChatStreamEvent × Option ChatResult :=
  match message with
  | none => (st, [], some (ChatResult.badRequest "Message is required"))
  | some msg =>
    if msg = "" then (st, [], some (ChatResult.badRequest "Message is required"))
    else
      let sid := effSessionId sessionId freshSession
      let history := (mapGet st.sessionHistory sid).getD []
      match storePrompt with
      | .error _ => (st, [ChatStreamEvent.errorEvent], none)
      | .ok recordId =>
        let run := chatStreamLoop sid (streamQueryYield rawDeltas) ""
        match storeResponse run.2 with
        | .error _ => (st, run.1 ++ [ChatStreamEvent.errorEvent], none)
        | .ok _ =>
          let history' := history ++
            [{ role := ConvRole.user, content := msg },
             { role := ConvRole.assistant, content := run.2 }]
          ({ sessionHistory := mapSet st.sessionHistory sid history' },
           run.1 ++ [ChatStreamEvent.doneEvent recordId sid], none)

/-! ### Requester side: x402 payment data model (header.tsx, lines 200-222) -/

structure ReqExtra where
  name : String
  version : String
deriving DecidableEq, Repr

structure PaymentRequirement where
  scheme : String
  network : String
  amount : String
  asset : String
  payTo : String
  maxTimeoutSeconds : Option Nat
  extra : Option ReqExtra
deriving DecidableEq, Repr

structure ResourceInfo where
  url : String
  description : String
  mimeType : String
deriving DecidableEq, Repr

structure X402PaymentInfo where
  x402Version : Nat
  error : String
  resource : ResourceInfo
  accepts : List PaymentRequirement
deriving DecidableEq, Repr

/-- The hard-coded default challenge of header.tsx (lines 384-401). -/
def defaultPaymentInfo (apiUrl : String) : X402PaymentInfo :=
  { x402Version := 2
    error := "Payment required"
    resource :=
      { url := apiUrl ++ "/api/chat"
        description := "Private Medical AI Query"
        mimeType := "application/json" }
    accepts :=
      [{ scheme := "exact"
         network := "eip155:84532"
         amount := "10000"
         asset := "0x036CbD53842c5426634e7929541eC2318f3dCF7e"
         payTo := "0xD202eAD5640e3b6FaF1e458649358c6Bca8e089c"
         maxTimeoutSeconds := some 300
         extra := some { name := "USDC", version := "2" } }] }

/-- The 402 branch of sendMessage (header.tsx, lines 337-408), at the level of
what paymentInfo ends up committed.

Arguments: renderPaymentInfo is the paymentInfo state captured by the closure
at render time; headerValue is none when no payment-required header variant is
present, some none when present but failing to decode, some (some c) when it
decodes to c; bodyValue is the body fallback (present only when it parses and
has accepts or x402Version).

React semantics embedded here: every setPaymentInfo call inside the handler
leaves the local binding renderPaymentInfo unchanged, and the committed state
after the handler is the argument of the last setPaymentInfo call (or the old
state when none was made). In particular the guard before the default,
"if (!paymentInfo)", reads renderPaymentInfo, not the value just set from the
header. -/
def handle402PaymentInfo (renderPaymentInfo : Option X402PaymentInfo)
    (headerValue : Option (Option X402PaymentInfo))
    (bodyValue : Option X402PaymentInfo) (apiUrl : String) :
    Option X402PaymentInfo :=
  let afterHeaderBody :=
    match headerValue with
    | some (some decoded) => some decoded
    | some none => renderPaymentInfo
    | none =>
      match bodyValue with
      | some b => some b
      | none => renderPaymentInfo
  if renderPaymentInfo = none then some (defaultPaymentInfo apiUrl)
  else afterHeaderBody

/-! ### Requester side: EIP-3009 authorization (header.tsx, lines 438-607) -/

structure PaymentAuthorization where
  fromAddr : String
  toAddr : String
  value : String
  validAfter : Int
  validBefore : Int
  nonce : String
deriving DecidableEq, Repr

/-- maxTimeoutSeconds || 300: JS falsiness, so both an absent field and an
explicit 0 fall back to 300. -/
def effectiveTimeout (mts : Option Nat) : Nat :=
  match mts with
  | none => 300
  | some t => if t = 0 then 300 else t

/-- validAfter = now - 600, validBefore = now + (maxTimeoutSeconds || 300);
value and addresses copied from the chosen requirement; the random nonce is
passed in. (The source stores the timestamps as decimal strings; they are kept
as integers here since only their arithmetic is specified.) -/
def buildAuthorization (now : Int) (address : String)
    (req : PaymentRequirement) (nonce : String) : PaymentAuthorization :=
  { fromAddr := address
    toAddr := req.payTo
    value := req.amount
    validAfter := now - 600
    validBefore := now + (effectiveTimeout req.maxTimeoutSeconds : Int)
    nonce := nonce }

/-! ### Requester side: orchestrator control flow (header.tsx sendMessage and
handlePayment)

The transport is modelled by the response the fetch returns. The control-flow
fact embedded here, read directly off the source: in the 402 branch sendMessage
only sets state (pendingMessage, paymentRequired, error, paymentInfo) and
returns; nothing in sendMessage or in its 402 branch invokes handlePayment —
the only caller of handlePayment is the user clicking the Pay button. The
NextAction value records which of the two ways each call returns. -/

structure HttpResponse where
  status : Nat
  paymentRequiredHeader : Option (Option X402PaymentInfo)
  bodyChallenge : Option X402PaymentInfo
  bodyResponse : Option String
  bodyError : Option String
deriving DecidableEq, Repr

/-- response.ok of fetch. -/
def respOk (r : HttpResponse) : Bool :=
  200 ≤ r.status && r.status < 300

structure ClientState where
  messages : List ConversationMessage
  pendingMessage : Option String
  paymentRequired : Bool
  errorMsg : Option String
  paymentInfo : Option X402PaymentInfo
deriving DecidableEq, Repr

inductive NextAction
  | finished
  | awaitUserPayment
deriving DecidableEq, Repr

/-- One call of sendMessage given the response of its single fetch. -/
def sendMessageStep (st : ClientState) (msgContent : String)
    (withPaymentHeader : Bool) (resp : HttpResponse) (apiUrl : String) :
    ClientState × NextAction :=
  let st0 :=
    if withPaymentHeader then st
    else { st with messages := st.messages ++
            [{ role := ConvRole.user, content := msgContent }] }
  let st1 := { st0 with errorMsg := none, paymentRequired := false }
  if resp.status = 402 then
    let newInfo := handle402PaymentInfo st.paymentInfo resp.paymentRequiredHeader
      resp.bodyChallenge apiUrl
    ({ st1 with
        paymentInfo := newInfo
        pendingMessage := some msgContent
        paymentRequired := true
        errorMsg := some "Payment required to continue. Please authorize the payment." },
     NextAction.awaitUserPayment)
  else if respOk resp then
    ({ st1 with
        messages := st1.messages ++
          [{ role := ConvRole.assistant, content := resp.bodyResponse.getD "" }]
        pendingMessage := none
        paymentInfo := none },
     NextAction.finished)
  else
    ({ st1 with errorMsg := some ((resp.bodyError).getD "Failed to get response") },
     NextAction.finished)

/-- One call of handlePayment on its success path (balance sufficient,
signature granted), given the response of the single resend it performs.
The Nat component counts the fetches carrying a payment header that this call
performs: it is 1 on the resend path and 0 when the preconditions fail. -/
def handlePaymentStep (st : ClientState) (resp : HttpResponse)
    (apiUrl : String) : ClientState × NextAction × Nat :=
  match st.pendingMessage, st.paymentInfo with
  | some pending, some _ =>
    let st1 := { st with paymentRequired := false }
    let out := sendMessageStep st1 pending true resp apiUrl
    (out.1, out.2, 1)
  | _, _ =>
    ({ st with errorMsg := some "Please connect your wallet first" },
     NextAction.finished, 0)

/-! ### Fixtures for concrete evaluations -/

/-- The stored conversation turns of a context: get(contextId) || []. -/
def storedHistory (st : ServerState) (cid : String) : List ConversationMessage :=
  (mapGet st.conversationHistory cid).getD []

/-- A producer whose calls all succeed trivially. -/
def idleProducer : ProducerBehavior :=
  { processQuery := fun _ _ => Except.ok "ok"
    streamQuery := fun _ _ => ([], none) }

def emptyServerState : ServerState :=
  { tasks := [], conversationHistory := [] }

def c1Task : A2ATask :=
  { id := "t1", contextId := "c1", status := TaskStatus.completed,
    messages := [userA2AMessage "hi", agentA2AMessage "hello"], artifacts := [] }

def c1State : ServerState :=
  { tasks := [("t1", c1Task)], conversationHistory := [] }

/-- C2 scenario, step 1: streaming message/send has created its working task. -/
def c2St1 : ServerState := msgSendStreamInit emptyServerState "t2" "c2" "hi"

/-- C2 scenario, step 2: tasks/cancel lands while the producer is streaming. -/
def c2St2 : ServerState :=
  match handleTasksCancel c2St1 (some "t2") with
  | Except.ok (s, _) => s
  | Except.error _ => c2St1

/-- C2 scenario, step 3: the completion step of message/send then runs. -/
def c2St3 : ServerState := (msgSendStreamFinish c2St2 "t2" "c2" "hi" [] "resp").1

def c3Req : RpcRequest :=
  { jsonrpc := "2.0", method := "message/send",
    params := { messageParts := [{ type := "text", text := some "hi" }],
                configuration := some { contextId := some "c3", streaming := some true },
                taskId := none } }

/-- A producer that errors exactly as nilai.service.ts reports its failures. -/
def failingProducer : ProducerBehavior :=
  { processQuery := fun _ _ => Except.error "Failed to process medical query securely"
    streamQuery := fun _ _ => ([], some "Failed to stream medical response") }

def c3Run : ServerState × RpcOutcome :=
  handleA2ARequest emptyServerState c3Req "cf" "t3" failingProducer

def c8Req : RpcRequest :=
  { jsonrpc := "2.0", method := "message/send",
    params := { messageParts := [{ type := "text", text := some "q" }],
                configuration := some { contextId := some "c8", streaming := some true },
                taskId := none } }

def c8Producer : ProducerBehavior :=
  { processQuery := fun _ _ => Except.error "boom"
    streamQuery := fun _ _ => (["a"], some "boom") }

def c8Run : ServerState × RpcOutcome :=
  handleA2ARequest emptyServerState c8Req "cf8" "t8" c8Producer

/-- A decoded challenge distinct from the hard-coded default (amount 20000). -/
def c4DecodedChallenge : X402PaymentInfo :=
  { x402Version := 2
    error := "Payment required"
    resource :=
      { url := "http://localhost:3001/api/chat"
        description := "Private Medical AI Query"
        mimeType := "application/json" }
    accepts :=
      [{ scheme := "exact"
         network := "eip155:84532"
         amount := "20000"
         asset := "0x036CbD53842c5426634e7929541eC2318f3dCF7e"
         payTo := "0xD202eAD5640e3b6FaF1e458649358c6Bca8e089c"
         maxTimeoutSeconds := some 600
         extra := some { name := "USDC", version := "2" } }] }

/-- A requirement that specifies maxTimeoutSeconds = 0. -/
def c6ZeroTimeoutReq : PaymentRequirement :=
  { scheme := "exact", network := "eip155:84532", amount := "10000",
    asset := "0x036CbD53842c5426634e7929541eC2318f3dCF7e",
    payTo := "0xD202eAD5640e3b6FaF1e458649358c6Bca8e089c",
    maxTimeoutSeconds := some 0, extra := none }

/-- A fresh client state (first submission of a message). -/
def freshClientState : ClientState :=
  { messages := [], pendingMessage := none, paymentRequired := false,
    errorMsg := none, paymentInfo := none }

/-- A 402 response carrying a header that decodes successfully. -/
def resp402WithHeader : HttpResponse :=
  { status := 402, paymentRequiredHeader := some (some c4DecodedChallenge),
    bodyChallenge := none, bodyResponse := none, bodyError := none }

/-! ## Map lemmas -/

theorem mapGet_mapSet_same {α : Type} (m : List (String × α)) (k : String) (v : α) :
    mapGet (mapSet m k v) k = some v := by
  simp [mapGet, mapSet]

theorem mapGet_mapErase_ne {α : Type} (m : List (String × α)) (k k' : String)
    (h : k' ≠ k) :
    mapGet (mapErase m k) k' = mapGet m k' := by
  induction m with
  | nil => rfl
  | cons a rest ih =>
    cases a with
    | mk a1 a2 =>
      by_cases hk : a1 = k
      · have hne : a1 ≠ k' := fun hc => h (hc ▸ hk)
        simp [mapErase, hk, mapGet, hne, Ne.symm h, ih]
      · by_cases ha : a1 = k'
        · simp [mapErase, hk, mapGet, ha, h]
        · simp [mapErase, hk, mapGet, ha, ih]

theorem mapGet_mapSet_ne {α : Type} (m : List (String × α)) (k k' : String) (v : α)
    (h : k' ≠ k) :
    mapGet (mapSet m k v) k' = mapGet m k' := by
  simp only [mapSet, mapGet, if_neg (fun hc : k = k' => h hc.symm)]
  exact mapGet_mapErase_ne m k k' h

/-! ## C1: terminal-state immutability under tasks/cancel -/

/-- Claim C1 as stated is false: tasks/cancel invoked on a task whose status is
already completed does change that task — handleTasksCancel has no terminal
check and sets the status to canceled unconditionally. Concretely, cancelling
the completed task t1 yields a task different from the stored one. -/
theorem c1_counterexample :
    handleTasksCancel c1State (some "t1") =
      Except.ok
        ({ tasks := [("t1", { c1Task with status := TaskStatus.canceled })],
           conversationHistory := [] },
         { c1Task with status := TaskStatus.canceled }) ∧
    ({ c1Task with status := TaskStatus.canceled } : A2ATask) ≠ c1Task := by
  constructor
  · rfl
  · decide

/-- Claim C1 amended: tasks/cancel on any stored task — whatever its status,
terminal states included — replaces exactly that entry with the same task whose
status is canceled (messages and artifacts untouched), and returns it. -/
theorem c1_amended (st : ServerState) (tid : String) (t : A2ATask)
    (h : mapGet st.tasks tid = some t) :
    handleTasksCancel st (some tid) =
      Except.ok
        ({ st with tasks := mapSet st.tasks tid { t with status := TaskStatus.canceled } },
         { t with status := TaskStatus.canceled }) := by
  simp [handleTasksCancel, h]

/-- Witness for c1_amended at the completed task t1 of c1State. -/
theorem c1_amended_witness :
    handleTasksCancel c1State (some "t1") =
      Except.ok
        ({ c1State with
            tasks := mapSet c1State.tasks "t1" { c1Task with status := TaskStatus.canceled } },
         { c1Task with status := TaskStatus.canceled }) :=
  c1_amended c1State "t1" c1Task (by decide)

/-! ## C2: advance/complete on a terminal task -/

/-- Claim C2 as stated is false: when tasks/cancel sets a task to canceled
while its producer is still streaming, the completion step of message/send
does overwrite the status of that task with completed. In the concrete interleaving
c2St1 (working task stored) → c2St2 (tasks/cancel: status canceled) → c2St3
(completion step runs), the final status is completed, not canceled, and no
TaskTerminated failure occurs anywhere. -/
theorem c2_counterexample :
    (mapGet c2St2.tasks "t2").map (fun t => t.status) = some TaskStatus.canceled ∧
    (mapGet c2St3.tasks "t2").map (fun t => t.status) = some TaskStatus.completed := by
  decide

/-- Claim C2 amended: the completion step of streaming message/send
unconditionally overwrites the registry entry of its task id with a completed
task, whatever status that entry had (canceled included); the code has no
TaskTerminated error. -/
theorem c2_amended (st : ServerState) (tid ctx ut fr : String)
    (hist : List ConversationMessage) :
    (mapGet (msgSendStreamFinish st tid ctx ut hist fr).1.tasks tid).map
        (fun t => t.status) =
      some TaskStatus.completed := by
  simp [msgSendStreamFinish, completedStreamTask, mapGet_mapSet_same]

/-! ## C3: producer failure reporting -/

/-- Claim C3 as stated is false on its second half: when the producer errors
during a streaming message/send, the failure is reported as an internal error
(-32603, first conjunct confirms that half), but the tracked task is NOT
marked failed — it stays in working. -/
theorem c3_counterexample :
    c3Run.2 =
      RpcOutcome.streamed
        [A2AEvent.taskEvent (initialStreamTask "t3" "c3" "hi")]
        (some (-32603, "Failed to stream medical response")) ∧
    (mapGet c3Run.1.tasks "t3").map (fun t => t.status) = some TaskStatus.working ∧
    (mapGet c3Run.1.tasks "t3").map (fun t => t.status) ≠ some TaskStatus.failed := by
  refine ⟨rfl, rfl, ?_⟩
  decide

/-- Claim C3 amended: a producer failure is reported to the caller as an
internal error (-32603 on the structured endpoint, a 500 with the failure
details on the chat endpoint), but no task is ever marked failed: the task
tracked by a failing streaming submission keeps status working, and the chat
endpoint tracks no task and leaves its session store unchanged. -/
theorem c3_amended (st : ServerState) (cst : ChatState)
    (parts : List MessagePart) (cid : Option String)
    (fc ft fs rid e msg : String) (sid : Option String)
    (hmsg : msg ≠ "") (he : e ≠ "") :
    (let req : RpcRequest :=
      { jsonrpc := "2.0", method := "message/send",
        params := { messageParts := parts,
                    configuration := some { contextId := cid, streaming := some true },
                    taskId := none } }
     let producer : ProducerBehavior :=
      { processQuery := fun _ _ => Except.error e,
        streamQuery := fun _ _ => ([], some e) }
     let out := handleA2ARequest st req fc ft producer
     (mapGet out.1.tasks ft).map (fun t => t.status) = some TaskStatus.working ∧
     out.2 =
       RpcOutcome.streamed
         [A2AEvent.taskEvent
           (initialStreamTask ft
             (effContextId { parts := parts, configuration := some { contextId := cid, streaming := some true } } fc)
             (userTextOf parts))]
         (some (-32603, e))) ∧
    handleChat cst (some msg) sid fs (Except.ok rid)
        (fun _ _ => Except.error e) (fun _ => Except.ok ()) =
      (cst, ChatResult.serverError "Failed to process medical query" e) := by
  constructor
  · constructor
    · simp [handleA2ARequest, effStreaming, runMessageSendStream, msgSendStreamInit,
        mapGet_mapSet_same, initialStreamTask]
    · simp [handleA2ARequest, effStreaming, runMessageSendStream, msgSendStreamInit,
        internalErrMsg, he, deltaEvents]
  · simp [handleChat, hmsg]

/-- Witness for c3_amended at concrete inputs. -/
theorem c3_amended_witness :
    ((mapGet (handleA2ARequest emptyServerState
        { jsonrpc := "2.0", method := "message/send",
          params := { messageParts := [{ type := "text", text := some "w" }],
                      configuration := some { contextId := some "cw", streaming := some true },
                      taskId := none } }
        "fcw" "tw"
        { processQuery := fun _ _ => Except.error "err",
          streamQuery := fun _ _ => ([], some "err") }).1.tasks "tw").map
        (fun t => t.status) = some TaskStatus.working ∧
      (handleA2ARequest emptyServerState
        { jsonrpc := "2.0", method := "message/send",
          params := { messageParts := [{ type := "text", text := some "w" }],
                      configuration := some { contextId := some "cw", streaming := some true },
                      taskId := none } }
        "fcw" "tw"
        { processQuery := fun _ _ => Except.error "err",
          streamQuery := fun _ _ => ([], some "err") }).2 =
        RpcOutcome.streamed
          [A2AEvent.taskEvent
            (initialStreamTask "tw"
              (effContextId { parts := [{ type := "text", text := some "w" }],
                              configuration := some { contextId := some "cw", streaming := some true } } "fcw")
              (userTextOf [{ type := "text", text := some "w" }]))]
          (some (-32603, "err"))) ∧
    handleChat { sessionHistory := [] } (some "m") none "fsw" (Except.ok "rw")
        (fun _ _ => Except.error "err") (fun _ => Except.ok ()) =
      ({ sessionHistory := [] }, ChatResult.serverError "Failed to process medical query" "err") :=
  c3_amended emptyServerState { sessionHistory := [] }
    [{ type := "text", text := some "w" }] (some "cw")
    "fcw" "tw" "fsw" "rw" "err" "m" none (by decide) (by decide)

/-! ## C8: structured error envelope of the task endpoint -/

/-- Claim C8 as stated is false on its no-mutation half: a failing streaming
message/send is a handler failure that yields the -32603 trailing error, yet
it mutates the task registry — the freshly created working task survives the
error. The first conjunct shows the structured -32603; the second shows the
state differs from the initial (empty) state. -/
theorem c8_counterexample :
    c8Run.2 =
      RpcOutcome.streamed
        [A2AEvent.taskEvent (initialStreamTask "t8" "c8" "q"),
         A2AEvent.taskEvent (deltaStreamTask "t8" "c8" "q" "a")]
        (some (-32603, "boom")) ∧
    c8Run.1 ≠ emptyServerState := by
  refine ⟨rfl, ?_⟩
  decide

/-- Claim C8 amended: every request yields a structured response — wrong
jsonrpc gives -32600, unknown method gives -32601, and a failing tasks/get or
tasks/cancel gives -32603 carrying the failure message — and on those four
paths no task or conversation state is mutated. (A failing streaming
message/send also reports -32603, but leaves its created working task in the
registry, per c8_counterexample.) -/
theorem c8_amended (st : ServerState) (req : RpcRequest) (fc ft : String)
    (producer : ProducerBehavior) :
    (req.jsonrpc ≠ "2.0" →
      handleA2ARequest st req fc ft producer =
        (st, RpcOutcome.rpcError (-32600) "Invalid Request")) ∧
    (req.jsonrpc = "2.0" → req.method ≠ "message/send" → req.method ≠ "tasks/get" →
      req.method ≠ "tasks/cancel" →
      handleA2ARequest st req fc ft producer =
        (st, RpcOutcome.rpcError (-32601) ("Method not found: " ++ req.method))) ∧
    (req.jsonrpc = "2.0" → req.method = "tasks/get" →
      req.params.taskId.bind (fun tid => mapGet st.tasks tid) = none →
      handleA2ARequest st req fc ft producer =
        (st, RpcOutcome.rpcError (-32603) "Task not found")) ∧
    (req.jsonrpc = "2.0" → req.method = "tasks/cancel" →
      req.params.taskId.bind (fun tid => mapGet st.tasks tid) = none →
      handleA2ARequest st req fc ft producer =
        (st, RpcOutcome.rpcError (-32603) "Task not found")) := by
  refine ⟨?_, ?_, ?_, ?_⟩
  · intro h
    simp [handleA2ARequest, h]
  · intro h hm hg hc
    simp [handleA2ARequest, h, hm, hg, hc]
  · intro h hm hnone
    simp [handleA2ARequest, h, hm, handleTasksGet, hnone, internalErrMsg]
  · intro h hm hnone
    cases htid : req.params.taskId with
    | none =>
      simp [handleA2ARequest, h, hm, handleTasksCancel, htid, internalErrMsg]
    | some tid =>
      rw [htid] at hnone
      simp only [Option.some_bind] at hnone
      simp [handleA2ARequest, h, hm, handleTasksCancel, htid, hnone, internalErrMsg]

/-- Witness for c8_amended: tasks/get with an unknown id on the empty state. -/
theorem c8_amended_witness :
    handleA2ARequest emptyServerState
      { jsonrpc := "2.0", method := "tasks/get",
        params := { messageParts := [], configuration := none, taskId := some "nope" } }
      "f" "t" idleProducer =
      (emptyServerState, RpcOutcome.rpcError (-32603) "Task not found") :=
  (c8_amended emptyServerState
    { jsonrpc := "2.0", method := "tasks/get",
      params := { messageParts := [], configuration := none, taskId := some "nope" } }
    "f" "t" idleProducer).2.2.1 rfl rfl (by decide)

/-! ## C4: decoded challenge vs default fallback -/

/-- Claim C4: the code at the failing input. On the first 402 of a message the
render-time paymentInfo state is still none, so although the payment-required
header is present and decodes successfully (to c4DecodedChallenge), the final
guard reads the stale none and the last setPaymentInfo call commits the
hard-coded default — the decoded challenge is discarded (first two conjuncts).
The decoded value survives only when the render-time state was already
non-none (third conjunct), the opposite of the claimed condition. This
contradicts the comment in the code itself ("Set a default payment info if we
could not get it from headers/body"), so the claim reflects the intent and the stale
guard is the slip. -/
theorem c4_code_behavior :
    handle402PaymentInfo none (some (some c4DecodedChallenge)) none
        "http://localhost:3001" =
      some (defaultPaymentInfo "http://localhost:3001") ∧
    defaultPaymentInfo "http://localhost:3001" ≠ c4DecodedChallenge ∧
    handle402PaymentInfo (some (defaultPaymentInfo "http://localhost:3001"))
        (some (some c4DecodedChallenge)) none "http://localhost:3001" =
      some c4DecodedChallenge ∧
    (sendMessageStep freshClientState "q" false resp402WithHeader
        "http://localhost:3001").1.paymentInfo =
      some (defaultPaymentInfo "http://localhost:3001") := by
  refine ⟨rfl, ?_, rfl, rfl⟩
  decide

/-! ## C5: no automatic resend after a second 402 -/

/-- Claim C5 confirmed: one invocation of handlePayment performs at most one
request carrying a payment header, and when that resend is answered with a
second 402, the 402 branch of sendMessage only records the state (paymentRequired,
pendingMessage, the user-facing error) and hands control back to the user
(NextAction.awaitUserPayment) — nothing resends automatically; every return
path of the flow is either finished or awaitUserPayment. -/
theorem c5_confirmed (st : ClientState) (resp : HttpResponse) (apiUrl : String) :
    (handlePaymentStep st resp apiUrl).2.2 ≤ 1 ∧
    ((handlePaymentStep st resp apiUrl).2.1 = NextAction.finished ∨
     (handlePaymentStep st resp apiUrl).2.1 = NextAction.awaitUserPayment) ∧
    (resp.status = 402 → ∀ pending info, st.pendingMessage = some pending →
      st.paymentInfo = some info →
      (handlePaymentStep st resp apiUrl).2.2 = 1 ∧
      (handlePaymentStep st resp apiUrl).2.1 = NextAction.awaitUserPayment ∧
      (handlePaymentStep st resp apiUrl).1.paymentRequired = true ∧
      (handlePaymentStep st resp apiUrl).1.errorMsg =
        some "Payment required to continue. Please authorize the payment.") := by
  refine ⟨?_, ?_, ?_⟩
  · cases hp : st.pendingMessage with
    | none => simp [handlePaymentStep, hp]
    | some pending =>
      cases hi : st.paymentInfo with
      | none => simp [handlePaymentStep, hp, hi]
      | some info => simp [handlePaymentStep, hp, hi]
  · cases hp : st.pendingMessage with
    | none => simp [handlePaymentStep, hp]
    | some pending =>
      cases hi : st.paymentInfo with
      | none => simp [handlePaymentStep, hp, hi]
      | some info =>
        simp only [handlePaymentStep, hp, hi, sendMessageStep]
        by_cases h402 : resp.status = 402
        · simp [h402]
        · by_cases hok : respOk resp = true <;> simp [h402, hok]
  · intro h402 pending info hp hi
    simp [handlePaymentStep, hp, hi, sendMessageStep, h402]

/-- Witness for c5_confirmed: a second 402 answered to the paid resend. -/
theorem c5_confirmed_witness :
    (handlePaymentStep
        { freshClientState with
            pendingMessage := some "q"
            paymentInfo := some (defaultPaymentInfo "http://localhost:3001") }
        resp402WithHeader "http://localhost:3001").2.2 = 1 ∧
    (handlePaymentStep
        { freshClientState with
            pendingMessage := some "q"
            paymentInfo := some (defaultPaymentInfo "http://localhost:3001") }
        resp402WithHeader "http://localhost:3001").2.1 = NextAction.awaitUserPayment ∧
    (handlePaymentStep
        { freshClientState with
            pendingMessage := some "q"
            paymentInfo := some (defaultPaymentInfo "http://localhost:3001") }
        resp402WithHeader "http://localhost:3001").1.paymentRequired = true ∧
    (handlePaymentStep
        { freshClientState with
            pendingMessage := some "q"
            paymentInfo := some (defaultPaymentInfo "http://localhost:3001") }
        resp402WithHeader "http://localhost:3001").1.errorMsg =
      some "Payment required to continue. Please authorize the payment." := by
  have h := (c5_confirmed
    { freshClientState with
        pendingMessage := some "q"
        paymentInfo := some (defaultPaymentInfo "http://localhost:3001") }
    resp402WithHeader "http://localhost:3001").2.2 rfl "q"
    (defaultPaymentInfo "http://localhost:3001") rfl rfl
  exact ⟨h.1, h.2.1, h.2.2.1, h.2.2.2⟩

/-! ## C6: authorization validity window -/

/-- Claim C6 as stated is false at maxTimeoutSeconds = 0: the code computes
validBefore with the JS-falsy fallback (maxTimeoutSeconds || 300), so an
authorization built for a requirement that specifies maxTimeoutSeconds = 0 has
validBefore = now + 300, not now + 0 as the equation of the claim requires. -/
theorem c6_counterexample :
    c6ZeroTimeoutReq.maxTimeoutSeconds = some 0 ∧
    (buildAuthorization 1000 "0xA" c6ZeroTimeoutReq "0x01").validBefore = 1300 ∧
    (1300 : Int) ≠ 1000 + 0 := by
  decide

/-- Claim C6 amended: validAfter = now - 600 always; validBefore = now +
maxTimeoutSeconds when that field is specified and nonzero, and now + 300 when
it is unspecified or zero (JS falsiness); consequently every constructed
authorization has validAfter < validBefore and validBefore - validAfter at
least the maxTimeoutSeconds of the requirement. -/
theorem c6_amended (now : Int) (addr nonce : String) (req : PaymentRequirement) :
    (buildAuthorization now addr req nonce).validAfter = now - 600 ∧
    (buildAuthorization now addr req nonce).validBefore =
      now + (effectiveTimeout req.maxTimeoutSeconds : Int) ∧
    (buildAuthorization now addr req nonce).validAfter <
      (buildAuthorization now addr req nonce).validBefore ∧
    (buildAuthorization now addr req nonce).validBefore -
        (buildAuthorization now addr req nonce).validAfter ≥
      ((req.maxTimeoutSeconds.getD 0 : Nat) : Int) := by
  refine ⟨rfl, rfl, ?_, ?_⟩
  · simp only [buildAuthorization]
    cases hm : req.maxTimeoutSeconds with
    | none => simp [effectiveTimeout]; omega
    | some t =>
      by_cases ht : t = 0
      · simp [effectiveTimeout, ht]; omega
      · simp only [effectiveTimeout, if_neg ht]
        have : (1 : Int) ≤ (t : Int) := by
          exact_mod_cast Nat.one_le_iff_ne_zero.mpr ht
        omega
  · simp only [buildAuthorization]
    cases hm : req.maxTimeoutSeconds with
    | none => simp [effectiveTimeout]
    | some t =>
      by_cases ht : t = 0
      · simp [effectiveTimeout, ht, Option.getD]
      · simp only [effectiveTimeout, if_neg ht, Option.getD_some]
        omega

/-! ## Streaming lemmas -/

theorem chatStreamLoop_events (sid : String) (chunks : List String) (acc : String) :
    (chatStreamLoop sid chunks acc).1 =
      chunks.map (fun c => ChatStreamEvent.chunkEvent c sid) := by
  induction chunks generalizing acc with
  | nil => rfl
  | cons c cs ih => simp [chatStreamLoop, ih]

theorem deltaEvents_length (tid ctx ut acc : String) (chunks : List String) :
    (deltaEvents tid ctx ut acc chunks).length = chunks.length := by
  induction chunks generalizing acc with
  | nil => rfl
  | cons c cs ih => simp [deltaEvents, ih]

theorem streamQueryYield_ne_empty (rawDeltas : List (Option String)) :
    ∀ c ∈ streamQueryYield rawDeltas, c ≠ "" := by
  intro c hc
  simp only [streamQueryYield, List.mem_filterMap] at hc
  obtain ⟨d, _, hd⟩ := hc
  cases d with
  | none => simp at hd
  | some s =>
    by_cases hs : s = ""
    · simp [hs] at hd
    · simp only [if_neg hs, Option.some_inj] at hd
      exact hd ▸ hs

/-! ## C7: streaming event discipline -/

/-- Claim C7 confirmed. On the success path of POST /api/chat/stream the
emitted events are exactly one chunk event per chunk yielded by the producer
(each carrying the chunk and the session id), in production order, followed by
exactly one done event carrying recordId and sessionId, after which the stream
ends; every yielded chunk is non-empty (streamQuery filters falsy deltas). The
structured-task streaming path likewise emits the initial snapshot, one
per-increment snapshot per chunk (deltaEvents has one event per chunk), and
ends with the completed-task event followed by the [DONE] sentinel. -/
theorem c7_confirmed (st : ChatState) (sst : ServerState) (p : SendParams)
    (msg : String) (sid : Option String) (fs rid fc ft : String)
    (rawDeltas : List (Option String)) (chunks : List String)
    (hmsg : msg ≠ "") :
    (handleChatStream st (some msg) sid fs (Except.ok rid) rawDeltas
        (fun _ => Except.ok ())).2.1 =
      ((streamQueryYield rawDeltas).map
          (fun c => ChatStreamEvent.chunkEvent c (effSessionId sid fs))) ++
        [ChatStreamEvent.doneEvent rid (effSessionId sid fs)] ∧
    (∀ c ∈ streamQueryYield rawDeltas, c ≠ "") ∧
    (runMessageSendStream sst p fc ft chunks none).2.1 =
      A2AEvent.taskEvent
          (initialStreamTask ft (effContextId p fc) (userTextOf p.parts)) ::
        (deltaEvents ft (effContextId p fc) (userTextOf p.parts) "" chunks ++
          [A2AEvent.taskEvent
            (completedStreamTask ft (effContextId p fc) (userTextOf p.parts)
              (String.join chunks)),
           A2AEvent.doneSentinel]) ∧
    (deltaEvents ft (effContextId p fc) (userTextOf p.parts) "" chunks).length =
      chunks.length := by
  refine ⟨?_, streamQueryYield_ne_empty rawDeltas, ?_, deltaEvents_length _ _ _ _ _⟩
  · simp [handleChatStream, hmsg, chatStreamLoop_events]
  · simp [runMessageSendStream, msgSendStreamFinish]

/-- Witness for c7_confirmed at a concrete producer run. -/
theorem c7_confirmed_witness :
    (handleChatStream { sessionHistory := [] } (some "hello") (some "s7") "fs7"
        (Except.ok "r7") [some "a", none, some "", some "b"]
        (fun _ => Except.ok ())).2.1 =
      ((streamQueryYield [some "a", none, some "", some "b"]).map
          (fun c => ChatStreamEvent.chunkEvent c (effSessionId (some "s7") "fs7"))) ++
        [ChatStreamEvent.doneEvent "r7" (effSessionId (some "s7") "fs7")] ∧
    (∀ c ∈ streamQueryYield [some "a", none, some "", some "b"], c ≠ "") ∧
    (runMessageSendStream emptyServerState
        { parts := [{ type := "text", text := some "hello" }],
          configuration := some { contextId := some "c7", streaming := some true } }
        "fc7" "t7" ["x", "y"] none).2.1 =
      A2AEvent.taskEvent
          (initialStreamTask "t7"
            (effContextId
              { parts := [{ type := "text", text := some "hello" }],
                configuration := some { contextId := some "c7", streaming := some true } } "fc7")
            (userTextOf [{ type := "text", text := some "hello" }])) ::
        (deltaEvents "t7"
            (effContextId
              { parts := [{ type := "text", text := some "hello" }],
                configuration := some { contextId := some "c7", streaming := some true } } "fc7")
            (userTextOf [{ type := "text", text := some "hello" }]) "" ["x", "y"] ++
          [A2AEvent.taskEvent
            (completedStreamTask "t7"
              (effContextId
                { parts := [{ type := "text", text := some "hello" }],
                  configuration := some { contextId := some "c7", streaming := some true } } "fc7")
              (userTextOf [{ type := "text", text := some "hello" }])
              (String.join ["x", "y"])),
           A2AEvent.doneSentinel]) ∧
    (deltaEvents "t7"
        (effContextId
          { parts := [{ type := "text", text := some "hello" }],
            configuration := some { contextId := some "c7", streaming := some true } } "fc7")
        (userTextOf [{ type := "text", text := some "hello" }]) "" ["x", "y"]).length =
      (["x", "y"] : List String).length :=
  c7_confirmed { sessionHistory := [] } emptyServerState
    { parts := [{ type := "text", text := some "hello" }],
      configuration := some { contextId := some "c7", streaming := some true } }
    "hello" (some "s7") "fs7" "r7" "fc7" "t7"
    [some "a", none, some "", some "b"] ["x", "y"] (by decide)

/-! ## C9: conversation context append discipline -/

/-- Claim C9 confirmed: reading an absent context yields the empty list, and
each successful query — non-streaming message/send, streaming message/send,
and the chat endpoint — appends exactly the user turn followed by the produced
assistant turn to its own context, as a suffix after all previously stored
turns, and leaves the entry of every other context untouched. -/
theorem c9_confirmed (sst : ServerState) (p : SendParams) (fc ft resp : String)
    (pq : String → List ConversationMessage → Except String String)
    (chunks : List String) (cst : ChatState) (msg : String) (sid : Option String)
    (fs rid chatResp : String)
    (hmsg : msg ≠ "")
    (hok : pq (userTextOf p.parts) (storedHistory sst (effContextId p fc)) =
      Except.ok resp) :
    (∀ st0 : ServerState, ∀ cid, mapGet st0.conversationHistory cid = none →
      storedHistory st0 cid = []) ∧
    (handleMessageSendSync sst p fc ft pq).map
        (fun r => storedHistory r.1 (effContextId p fc)) =
      Except.ok (storedHistory sst (effContextId p fc) ++
        [{ role := ConvRole.user, content := userTextOf p.parts },
         { role := ConvRole.assistant, content := resp }]) ∧
    (∀ cid, cid ≠ effContextId p fc →
      (handleMessageSendSync sst p fc ft pq).map
          (fun r => mapGet r.1.conversationHistory cid) =
        Except.ok (mapGet sst.conversationHistory cid)) ∧
    storedHistory (runMessageSendStream sst p fc ft chunks none).1
        (effContextId p fc) =
      storedHistory sst (effContextId p fc) ++
        [{ role := ConvRole.user, content := userTextOf p.parts },
         { role := ConvRole.assistant, content := String.join chunks }] ∧
    (∀ cid, cid ≠ effContextId p fc →
      mapGet (runMessageSendStream sst p fc ft chunks none).1.conversationHistory
          cid =
        mapGet sst.conversationHistory cid) ∧
    (handleChat cst (some msg) sid fs (Except.ok rid)
        (fun _ _ => Except.ok chatResp) (fun _ => Except.ok ())).1.sessionHistory =
      mapSet cst.sessionHistory (effSessionId sid fs)
        (((mapGet cst.sessionHistory (effSessionId sid fs)).getD []) ++
          [{ role := ConvRole.user, content := msg },
           { role := ConvRole.assistant, content := chatResp }]) ∧
    (∀ s, s ≠ effSessionId sid fs →
      mapGet (handleChat cst (some msg) sid fs (Except.ok rid)
          (fun _ _ => Except.ok chatResp) (fun _ => Except.ok ())).1.sessionHistory
          s =
        mapGet cst.sessionHistory s) := by
  simp only [storedHistory] at hok
  refine ⟨?_, ?_, ?_, ?_, ?_, ?_, ?_⟩
  · intro st0 cid h
    simp [storedHistory, h]
  · simp [handleMessageSendSync, hok, storedHistory, Except.map, mapGet_mapSet_same]
  · intro cid hne
    simp [handleMessageSendSync, hok, Except.map, mapGet_mapSet_ne _ _ _ _ hne]
  · simp [runMessageSendStream, msgSendStreamFinish, msgSendStreamInit,
      storedHistory, mapGet_mapSet_same]
  · intro cid hne
    simp [runMessageSendStream, msgSendStreamFinish, msgSendStreamInit,
      mapGet_mapSet_ne _ _ _ _ hne]
  · simp [handleChat, hmsg]
  · intro s hne
    simp [handleChat, hmsg, mapGet_mapSet_ne _ _ _ _ hne]

/-- Witness for c9_confirmed: streaming append on the empty store. -/
theorem c9_confirmed_witness :
    storedHistory
        (runMessageSendStream emptyServerState
          { parts := [{ type := "text", text := some "hey" }],
            configuration := some { contextId := some "c9", streaming := some true } }
          "fc9" "t9" ["z"] none).1
        (effContextId
          { parts := [{ type := "text", text := some "hey" }],
            configuration := some { contextId := some "c9", streaming := some true } }
          "fc9") =
      storedHistory emptyServerState
          (effContextId
            { parts := [{ type := "text", text := some "hey" }],
              configuration := some { contextId := some "c9", streaming := some true } }
            "fc9") ++
        [{ role := ConvRole.user,
           content := userTextOf [{ type := "text", text := some "hey" }] },
         { role := ConvRole.assistant, content := String.join ["z"] }] :=
  (c9_confirmed emptyServerState
    { parts := [{ type := "text", text := some "hey" }],
      configuration := some { contextId := some "c9", streaming := some true } }
    "fc9" "t9" "fine" (fun _ _ => Except.ok "fine") ["z"]
    { sessionHistory := [] } "m9" none "fs9" "r9" "a9"
    (by decide) rfl).2.2.2.1

/-! ## C10: message/send writes only its fresh task id -/

/-- Claim C10 confirmed: message/send stores its task under the fresh task id
(the stored entry carries that id), writes no other key of the task registry
on either path — any id other than the fresh one maps exactly as before — and
in particular every task present before the call is still present, unchanged,
after it, whatever contextId the call used. -/
theorem c10_confirmed (sst : ServerState) (p : SendParams) (fc ft resp : String)
    (pq : String → List ConversationMessage → Except String String)
    (chunks : List String)
    (hfresh : mapGet sst.tasks ft = none)
    (hok : pq (userTextOf p.parts) (storedHistory sst (effContextId p fc)) =
      Except.ok resp) :
    (handleMessageSendSync sst p fc ft pq).map
        (fun r => (mapGet r.1.tasks ft).map (fun t => t.id)) =
      Except.ok (some ft) ∧
    (∀ tid, tid ≠ ft →
      (handleMessageSendSync sst p fc ft pq).map (fun r => mapGet r.1.tasks tid) =
        Except.ok (mapGet sst.tasks tid)) ∧
    (mapGet (runMessageSendStream sst p fc ft chunks none).1.tasks ft).map
        (fun t => t.id) =
      some ft ∧
    (∀ tid, tid ≠ ft →
      mapGet (runMessageSendStream sst p fc ft chunks none).1.tasks tid =
        mapGet sst.tasks tid) ∧
    (∀ tid t, mapGet sst.tasks tid = some t →
      mapGet (runMessageSendStream sst p fc ft chunks none).1.tasks tid = some t) := by
  simp only [storedHistory] at hok
  have hstream : ∀ tid, tid ≠ ft →
      mapGet (runMessageSendStream sst p fc ft chunks none).1.tasks tid =
        mapGet sst.tasks tid := by
    intro tid hne
    simp [runMessageSendStream, msgSendStreamFinish, msgSendStreamInit,
      mapGet_mapSet_ne _ _ _ _ hne]
  refine ⟨?_, ?_, ?_, hstream, ?_⟩
  · simp [handleMessageSendSync, hok, Except.map, mapGet_mapSet_same]
  · intro tid hne
    simp [handleMessageSendSync, hok, Except.map, mapGet_mapSet_ne _ _ _ _ hne]
  · simp [runMessageSendStream, msgSendStreamFinish, completedStreamTask,
      mapGet_mapSet_same]
  · intro tid t h
    have hne : tid ≠ ft := by
      intro hc
      rw [hc, hfresh] at h
      exact Option.noConfusion h
    rw [hstream tid hne, h]

/-- Witness for c10_confirmed: a pre-existing task survives a streaming
message/send under a fresh id. -/
theorem c10_confirmed_witness :
    mapGet
        (runMessageSendStream c1State
          { parts := [{ type := "text", text := some "again" }],
            configuration := some { contextId := some "c1", streaming := some true } }
          "fc10" "t10" ["w"] none).1.tasks "t1" =
      some c1Task :=
  (c10_confirmed c1State
    { parts := [{ type := "text", text := some "again" }],
      configuration := some { contextId := some "c1", streaming := some true } }
    "fc10" "t10" "fine" (fun _ _ => Except.ok "fine") ["w"]
    (by decide) rfl).2.2.2.2 "t1" c1Task (by decide)

end Phylax
